import Mathlib

/-!
Shallow embedding of the single-file Streamlit dashboard `app.py`
(YouTube Analytics → Google Sheet exporter) and proofs of the
specification's claims about it.

External effects (Streamlit secrets, the Analytics API, the Data API,
gspread) are modelled as explicit inputs/oracles; the app-authored
control flow and data reshaping are embedded faithfully, statement by
statement.
-/

namespace App

/-! ### Python `str.strip()` (app.py lines 36-37) -/

/-- The whitespace characters stripped by Python's `str.strip()`
(restricted to the ASCII range, which is all the app's secrets use). -/
def isPySpace (c : Char) : Bool :=
  c == ' ' || c == '\t' || c == '\n' || c == '\r' || c == '\x0b' || c == '\x0c'

/-- `str.strip()` on a list of characters: drop whitespace from both ends. -/
def pyStripL (l : List Char) : List Char :=
  ((l.dropWhile isPySpace).reverse.dropWhile isPySpace).reverse

/-- Python's `s.strip()`. -/
def pyStrip (s : String) : String :=
  String.mk (pyStripL s.data)

/-! ### Secrets loading (app.py lines 23-40) -/

/-- The required secret keys, in the order the module-level `try` block
evaluates them (`GOOGLE_PROJECT_ID` is read with `.get` and is optional). -/
def requiredKeys : List String :=
  ["GOOGLE_CLIENT_ID", "GOOGLE_CLIENT_SECRET", "REDIRECT_URI",
   "YOUTUBE_CHANNEL_ID", "GOOGLE_SHEET_ID"]

/-- `st.secrets`: a key-value store that may lack any key. -/
structure SecretsStore where
  get? : String → Option String

/-- The configuration values the module-level block binds on success. -/
structure Config where
  client_id : String
  project_id : String
  client_secret : String
  redirect_uri : String
  target_channel_id : String
  google_sheet_id : String
deriving DecidableEq

/-- The module-level secrets block: each `st.secrets[k]` lookup raises
`KeyError k` when `k` is absent, and the `except KeyError` clause reports
that single key; lookups happen in source order.  `TARGET_CHANNEL_ID` and
`GOOGLE_SHEET_ID` are `.strip()`ped (lines 36-37). -/
def loadSecrets (s : SecretsStore) : Except String Config :=
  match s.get? "GOOGLE_CLIENT_ID" with
  | none => .error "GOOGLE_CLIENT_ID"
  | some cid =>
    match s.get? "GOOGLE_CLIENT_SECRET" with
    | none => .error "GOOGLE_CLIENT_SECRET"
    | some csec =>
      match s.get? "REDIRECT_URI" with
      | none => .error "REDIRECT_URI"
      | some ruri =>
        match s.get? "YOUTUBE_CHANNEL_ID" with
        | none => .error "YOUTUBE_CHANNEL_ID"
        | some ch =>
          match s.get? "GOOGLE_SHEET_ID" with
          | none => .error "GOOGLE_SHEET_ID"
          | some sh =>
            .ok ⟨cid, (s.get? "GOOGLE_PROJECT_ID").getD "", csec, ruri,
                 pyStrip ch, pyStrip sh⟩

/-- The set (as an ordered sublist of `requiredKeys`) of absent required keys. -/
def absentKeys (s : SecretsStore) : List String :=
  requiredKeys.filter (fun k => (s.get? k).isNone)

/-- The missing-field list the startup error message reports:
the one key carried by the first `KeyError`, or nothing on success. -/
def reportedMissing (s : SecretsStore) : List String :=
  match loadSecrets s with
  | .error k => [k]
  | .ok _ => []

/-! ### Dates and the report query (app.py lines 78-106) -/

/-- A calendar date as `datetime.date` carries it. -/
structure Date where
  year : Nat
  month : Nat
  day : Nat
deriving DecidableEq

/-- Zero-pad a decimal rendering to width `w`. -/
def padZeros (w : Nat) (n : Nat) : String :=
  String.mk (List.replicate (w - (toString n).length) '0') ++ toString n

/-- `d.strftime("%Y-%m-%d")`: the ISO calendar-date rendering. -/
def strftimeYmd (d : Date) : String :=
  padZeros 4 d.year ++ "-" ++ padZeros 2 d.month ++ "-" ++ padZeros 2 d.day

/-- The fixed metric list of the report query (app.py line 88). -/
def metricsList : List String :=
  ["views", "redViews", "comments", "likes", "dislikes", "shares",
   "estimatedMinutesWatched", "averageViewDuration",
   "subscribersGained", "subscribersLost"]

/-- The comma-joined `metrics` parameter. -/
def metricsParam : String := String.intercalate "," metricsList

/-- One entry of `response['columnHeaders']`. -/
structure ColumnHeader where
  name : String
deriving DecidableEq

/-- The Analytics API response: an ordered column-header list, and a
`rows` key that may be absent (`none`) when there are zero results. -/
structure AnalyticsResponse where
  columnHeaders : List ColumnHeader
  rows : Option (List (List String))

/-- Outcome of `request.execute()`: a response, or an `HttpError`
carrying its status. -/
inductive ApiOutcome where
  | success (resp : AnalyticsResponse)
  | httpError (status : Nat)

/-- A pandas DataFrame as the app builds it: named columns plus rows. -/
structure Table where
  columns : List String
  rows : List (List String)
deriving DecidableEq

/-- `pd.DataFrame()`: the empty table. -/
def emptyTable : Table := ⟨[], []⟩

/-- The parameters of `youtube_service.reports().query(...)`. -/
structure ReportQuery where
  ids : String
  startDate : String
  endDate : String
  metrics : String
  dimensions : String
  sort : String
deriving DecidableEq

/-- The user-visible error messages the fetch path can emit. -/
inductive UiMsg where
  | permission403 (channel_id : String)
  | fetchErrorOther (status : Nat)
deriving DecidableEq

/-- The single report query `fetch_youtube_data` builds (lines 84-91). -/
def buildQuery (channel_id : String) (start_date end_date : Date) : ReportQuery :=
  ⟨"channel==" ++ channel_id,
   strftimeYmd start_date,
   strftimeYmd end_date,
   metricsParam,
   "day",
   "day"⟩

/-- Lines 95-100: with a `rows` key, build a DataFrame whose columns are
the API-declared header names; otherwise `pd.DataFrame()`. -/
def decodeResponse (resp : AnalyticsResponse) : Table :=
  match resp.rows with
  | some rs => ⟨resp.columnHeaders.map (fun h => h.name), rs⟩
  | none => emptyTable

/-- `fetch_youtube_data` (lines 78-106), with the API modelled as an
oracle from the query to an outcome.  Returns the list of queries issued,
the returned value (`None` on `HttpError`), and the error messages shown. -/
def fetch_youtube_data (channel_id : String) (start_date end_date : Date)
    (api : ReportQuery → ApiOutcome) :
    List ReportQuery × Option Table × List UiMsg :=
  let q := buildQuery channel_id start_date end_date
  match api q with
  | .success resp => ([q], some (decodeResponse resp), [])
  | .httpError st =>
      ([q], none,
       [if st = 403 then UiMsg.permission403 channel_id
        else UiMsg.fetchErrorOther st])

/-! ### The sheet writer (app.py lines 108-122) -/

/-- The spreadsheet operations `write_to_sheet` performs, in order; any
one of them may raise. -/
inductive WStep where
  | authorize
  | openSheet
  | getValues
  | updateHeader
  | appendRows
deriving DecidableEq

/-- Result of one `write_to_sheet` call: the sheet contents afterwards,
the returned boolean, and whether this call wrote a header row. -/
structure WriteResult where
  sheet : List (List String)
  ok : Bool
  wroteHeader : Bool
deriving DecidableEq

/-- `write_to_sheet` (lines 108-122).  `failAt` injects an exception at
one designated operation (`none`: nothing raises); an operation that is
not executed cannot raise, and effects of operations completed before the
raising one persist.  The sheet is the list of its rows; `get_all_values`
on an empty sheet yields the empty (falsy) list. -/
def write_to_sheet (failAt : Option WStep) (sheet : List (List String))
    (header : List String) (rows : List (List String)) : WriteResult :=
  if failAt = some WStep.authorize ∨ failAt = some WStep.openSheet
      ∨ failAt = some WStep.getValues then
    ⟨sheet, false, false⟩
  else if sheet.isEmpty then
    if failAt = some WStep.updateHeader then ⟨sheet, false, false⟩
    else if failAt = some WStep.appendRows then ⟨[header], false, true⟩
    else ⟨header :: rows, true, true⟩
  else
    if failAt = some WStep.appendRows then ⟨sheet, false, false⟩
    else ⟨sheet ++ rows, true, false⟩

/-- Whether the exception injected by `failAt` actually fires on a sheet
in state `sheet`: `update` is only executed when the sheet is empty. -/
def raisesDuring (failAt : Option WStep) (sheet : List (List String)) : Bool :=
  match failAt with
  | none => false
  | some WStep.updateHeader => sheet.isEmpty
  | some _ => true

/-- Run a sequence of successful `write_to_sheet` calls (each call is a
header/rows pair, the header being that call's DataFrame columns),
threading the sheet state; also record each call's header-written flag. -/
def runAppendCalls :
    List (List String × List (List String)) → List (List String) →
    List (List String) × List Bool
  | [], s => (s, [])
  | c :: rest, s =>
    let r := write_to_sheet none s c.1 c.2
    let t := runAppendCalls rest r.sheet
    (t.1, r.wroteHeader :: t.2)

/-! ### The deviation monitor (not present in `app.py`; other variants) -/

/-- An alert of the deviation monitor. -/
structure AlertEvent where
  metric : String
  latest : ℚ
  avg7 : ℚ
  deviation : ℚ
deriving DecidableEq

/-- The latest sample: the last element of the series. -/
def latestSample (samples : List ℚ) : ℚ := samples.getLastD 0

/-- The arithmetic mean of the 7 samples immediately preceding the
latest one. -/
def avg7 (samples : List ℚ) : ℚ :=
  ((samples.dropLast).drop (samples.dropLast.length - 7)).sum / 7

/-- Modelled from the spec: `checkDeviation` (spec §4.5); the Deviation
Monitor is absent from `src/app.py` (this variant has no monitor), so the
definition follows the spec's words: it requires at least 8 samples,
computes `avg7` over the 7 samples preceding the latest, returns none
when `avg7 == 0`, and alerts exactly when
`|latest - avg7| / avg7 > threshold`. -/
def checkDeviation (samples : List ℚ) (metric : String) (threshold : ℚ) :
    Option AlertEvent :=
  if samples.length < 8 then none
  else
    let a := avg7 samples
    if a = 0 then none
    else
      let dev := |latestSample samples - a| / a
      if dev > threshold then some ⟨metric, latestSample samples, a, dev⟩
      else none

/-! ### Credentials and session state (app.py lines 42-62, 143-151) -/

/-- The fields of a `google.oauth2.credentials.Credentials` object that
`save_credentials_to_session` reads. -/
structure Creds where
  token : String
  refresh_token : String
  token_uri : String
  client_id : String
  client_secret : String
  scopes : List String
deriving DecidableEq

/-- The dict stored in `st.session_state.credentials` (lines 55-62). -/
structure StoredCreds where
  token : String
  refresh_token : String
  token_uri : String
  client_id : String
  client_secret : String
  scopes : List String
deriving DecidableEq

/-- `save_credentials_to_session` (lines 53-62): store the six fields. -/
def save_credentials_to_session (c : Creds) : StoredCreds :=
  ⟨c.token, c.refresh_token, c.token_uri, c.client_id, c.client_secret,
   c.scopes⟩

/-- Outcome of `flow.fetch_token(code=...)`. -/
inductive ExchangeOutcome where
  | ok (c : Creds)
  | exError (msg : String)

/-! ### Channel verification and the main UI flow (app.py lines 64-196) -/

/-- One item of the `channels().list(mine=True)` response. -/
structure Channel where
  id : String
  title : String
deriving DecidableEq

/-- Outcome of the `channels().list` call. -/
inductive ChannelsOutcome where
  | items (chs : List Channel)
  | httpError (status : Nat)

/-- `get_accessible_channels` (lines 64-76): the item list on success,
`None` on `HttpError`. -/
def get_accessible_channels (o : ChannelsOutcome) : Option (List Channel) :=
  match o with
  | .items chs => some chs
  | .httpError _ => none

/-- What one top-to-bottom run of the script did. -/
structure Trace where
  haltedMissing : Option String
  networkCalls : Nat
  pipelineRuns : Nat
  mismatch : Option (String × List Channel)
  session : Option StoredCreds
  authError : Bool
  writeOk : Option Bool
deriving DecidableEq

/-- One top-to-bottom run of `app.py`, from the secrets block through the
main UI (lines 23-196).  Inputs: the secrets store, the session state on
entry, the `code` query parameter, oracles for the token exchange, the
channel-list call, the report query and the sheet write, whether the
"Fetch & Update Now" button was clicked this run, the selected dates, and
the sheet contents.  `pipelineRuns` counts executions of the
fetch-and-write pipeline under the button; `networkCalls` counts outbound
API calls. -/
def scriptRun (s : SecretsStore) (session : Option StoredCreds)
    (authCode : Option String) (exchangeO : ExchangeOutcome)
    (channelsO : ChannelsOutcome) (clicked : Bool)
    (startD endD : Date) (api : ReportQuery → ApiOutcome)
    (writeFail : Option WStep) (sheet : List (List String)) : Trace :=
  match loadSecrets s with
  | .error k => ⟨some k, 0, 0, none, session, false, none⟩
  | .ok cfg =>
    match session with
    | none =>
      match authCode with
      | none => ⟨none, 0, 0, none, none, false, none⟩
      | some _ =>
        match exchangeO with
        | .ok c =>
            ⟨none, 1, 0, none, some (save_credentials_to_session c), false,
             none⟩
        | .exError _ => ⟨none, 1, 0, none, none, true, none⟩
    | some st =>
      match get_accessible_channels channelsO with
      | none => ⟨none, 1, 0, none, some st, false, none⟩
      | some chs =>
        if cfg.target_channel_id ∈ chs.map Channel.id then
          if clicked then
            let f := fetch_youtube_data cfg.target_channel_id startD endD api
            let nw : Nat × Option Bool :=
              match f.2.1 with
              | some t =>
                if t.rows.isEmpty then (2, none)
                else (3, some (write_to_sheet writeFail sheet t.columns t.rows).ok)
              | none => (2, none)
            ⟨none, nw.1, 1, none, some st, false, nw.2⟩
          else ⟨none, 1, 0, none, some st, false, none⟩
        else
          ⟨none, 1, 0, some (cfg.target_channel_id, chs), some st, false,
           none⟩

/-! ### Concrete fixtures used by witnesses and counterexamples -/

deriving instance DecidableEq for Except

/-- A secrets store missing `GOOGLE_CLIENT_ID` and `GOOGLE_CLIENT_SECRET`. -/
def cexStore : SecretsStore :=
  ⟨fun k =>
    if k = "REDIRECT_URI" ∨ k = "YOUTUBE_CHANNEL_ID" ∨ k = "GOOGLE_SHEET_ID"
    then some "v" else none⟩

/-- A secrets store missing exactly `GOOGLE_SHEET_ID`. -/
def oneMissingStore : SecretsStore :=
  ⟨fun k => if k = "GOOGLE_SHEET_ID" then none
    else if k ∈ requiredKeys then some "v" else none⟩

/-- A complete secrets store (channel id with surrounding whitespace). -/
def fullStore : SecretsStore :=
  ⟨fun k =>
    if k = "GOOGLE_CLIENT_ID" then some "cid"
    else if k = "GOOGLE_CLIENT_SECRET" then some "csec"
    else if k = "REDIRECT_URI" then some "ruri"
    else if k = "YOUTUBE_CHANNEL_ID" then some " UC1 "
    else if k = "GOOGLE_SHEET_ID" then some "sh1"
    else none⟩

/-- The configuration `fullStore` loads to. -/
def fullCfg : Config := ⟨"cid", "", "csec", "ruri", "UC1", "sh1"⟩

/-- A fixed date. -/
def dateA : Date := ⟨2026, 10, 12⟩

/-- A fixed date. -/
def dateB : Date := ⟨2026, 10, 5⟩

/-- An API oracle that always fails with HTTP 500. -/
def apiErr500 : ReportQuery → ApiOutcome := fun _ => ApiOutcome.httpError 500

/-- An API oracle that always fails with HTTP 403. -/
def apiErr403 : ReportQuery → ApiOutcome := fun _ => ApiOutcome.httpError 403

/-- An API oracle answering with a `rows`-free response. -/
def apiNoRows : ReportQuery → ApiOutcome :=
  fun _ => ApiOutcome.success ⟨[⟨"day"⟩, ⟨"views"⟩], none⟩

/-- An API oracle answering with one data row. -/
def apiOneRow : ReportQuery → ApiOutcome :=
  fun _ => ApiOutcome.success ⟨[⟨"day"⟩, ⟨"views"⟩], some [["2026-10-11", "5"]]⟩

/-- A stored session credential. -/
def demoStored : StoredCreds := ⟨"tok", "ref", "uri", "cid", "csec", ["s1"]⟩

/-- A credential object as returned by a successful token exchange. -/
def demoCreds : Creds := ⟨"tok", "ref", "uri", "cid", "csec", ["s1"]⟩

/-- The accessible channel matching `fullCfg`'s target. -/
def demoChannel : Channel := ⟨"UC1", "My Channel"⟩

/-! ## Theorems -/

/-! ### Helper lemmas -/

theorem dropWhile_append_of_forall {p : Char → Bool} :
    ∀ w s : List Char, (∀ c ∈ w, p c = true) →
      (w ++ s).dropWhile p = s.dropWhile p := by
  intro w
  induction w with
  | nil => intro s _; rfl
  | cons a w ih =>
    intro s h
    have ha : p a = true := h a (by simp)
    simp only [List.cons_append, List.dropWhile_cons, ha, if_true]
    exact ih s (fun c hc => h c (by simp [hc]))

theorem dropWhile_eq_nil_of_forall {p : Char → Bool} :
    ∀ l : List Char, (∀ c ∈ l, p c = true) → l.dropWhile p = [] := by
  intro l h
  have := dropWhile_append_of_forall (p := p) l [] h
  simpa using this

theorem dropWhile_append_of_ne_nil {p : Char → Bool} :
    ∀ s w : List Char, s.dropWhile p ≠ [] →
      (s ++ w).dropWhile p = s.dropWhile p ++ w := by
  intro s
  induction s with
  | nil => intro w h; simp at h
  | cons a s ih =>
    intro w h
    by_cases ha : p a = true
    · simp only [List.cons_append, List.dropWhile_cons, ha, if_true] at h ⊢
      exact ih w h
    · have ha' : p a = false := by
        cases hpa : p a
        · rfl
        · exact absurd hpa ha
      simp [List.dropWhile_cons, ha']

theorem forall_of_dropWhile_eq_nil {p : Char → Bool} :
    ∀ l : List Char, l.dropWhile p = [] → ∀ c ∈ l, p c = true := by
  intro l
  induction l with
  | nil => intro _ c hc; simp at hc
  | cons a l ih =>
    intro h c hc
    have ha : p a = true := by
      cases hpa : p a
      · simp [List.dropWhile_cons, hpa] at h
      · rfl
    rcases List.mem_cons.mp hc with hca | hcl
    · exact hca ▸ ha
    · exact ih (by simpa [List.dropWhile_cons, ha] using h) c hcl

theorem pyStripL_surround (w1 mid w2 : List Char)
    (h1 : ∀ c ∈ w1, isPySpace c = true) (h2 : ∀ c ∈ w2, isPySpace c = true) :
    pyStripL (w1 ++ mid ++ w2) = pyStripL mid := by
  unfold pyStripL
  rw [List.append_assoc, dropWhile_append_of_forall w1 (mid ++ w2) h1]
  by_cases hmid : mid.dropWhile isPySpace = []
  · rw [hmid]
    have hall : ∀ c ∈ mid ++ w2, isPySpace c = true := by
      intro c hc
      rcases List.mem_append.mp hc with hcm | hcw
      · exact forall_of_dropWhile_eq_nil mid hmid c hcm
      · exact h2 c hcw
    rw [dropWhile_eq_nil_of_forall (mid ++ w2) hall]
  · rw [dropWhile_append_of_ne_nil mid w2 hmid, List.reverse_append,
        dropWhile_append_of_forall w2.reverse (mid.dropWhile isPySpace).reverse
          (fun c hc => h2 c (List.mem_reverse.mp hc))]

theorem loadSecrets_error_first (s : SecretsStore) (h : absentKeys s ≠ []) :
    loadSecrets s = .error ((absentKeys s).headD "") := by
  rcases h1 : s.get? "GOOGLE_CLIENT_ID" with _ | cid
  · simp [loadSecrets, absentKeys, requiredKeys, h1, List.filter]
  rcases h2 : s.get? "GOOGLE_CLIENT_SECRET" with _ | csec
  · simp [loadSecrets, absentKeys, requiredKeys, h1, h2, List.filter]
  rcases h3 : s.get? "REDIRECT_URI" with _ | ruri
  · simp [loadSecrets, absentKeys, requiredKeys, h1, h2, h3, List.filter]
  rcases h4 : s.get? "YOUTUBE_CHANNEL_ID" with _ | ch
  · simp [loadSecrets, absentKeys, requiredKeys, h1, h2, h3, h4, List.filter]
  rcases h5 : s.get? "GOOGLE_SHEET_ID" with _ | sh
  · simp [loadSecrets, absentKeys, requiredKeys, h1, h2, h3, h4, h5, List.filter]
  · exact absurd (by simp [absentKeys, requiredKeys, h1, h2, h3, h4, h5,
      List.filter]) h

/-! ### Claim C1 -/

/-- Claim C1, counterexample: with both `GOOGLE_CLIENT_ID` and
`GOOGLE_CLIENT_SECRET` absent, startup reports only `GOOGLE_CLIENT_ID`
(the first `KeyError`), so the reported missing-field list does not match
the set of absent keys. -/
theorem secrets_missing_report_counterexample :
    reportedMissing cexStore = ["GOOGLE_CLIENT_ID"]
    ∧ absentKeys cexStore = ["GOOGLE_CLIENT_ID", "GOOGLE_CLIENT_SECRET"]
    ∧ reportedMissing cexStore ≠ absentKeys cexStore := by
  refine ⟨by decide, by decide, by decide⟩

/-- Claim C1 (amended): if any required secret is absent, startup halts
before any network call, and the reported missing-field list is exactly
the first absent key in evaluation order (so it matches the set of absent
keys when exactly one key is absent, but names only the first when
several are absent). -/
theorem missing_secret_halts_first_key (s : SecretsStore)
    (h : absentKeys s ≠ []) :
    reportedMissing s = [(absentKeys s).headD ""]
    ∧ ∀ session authCode exchangeO channelsO clicked startD endD api
        writeFail sheet,
        (scriptRun s session authCode exchangeO channelsO clicked startD endD
            api writeFail sheet).haltedMissing
          = some ((absentKeys s).headD "")
        ∧ (scriptRun s session authCode exchangeO channelsO clicked startD
            endD api writeFail sheet).networkCalls = 0
        ∧ (scriptRun s session authCode exchangeO channelsO clicked startD
            endD api writeFail sheet).pipelineRuns = 0 := by
  have he := loadSecrets_error_first s h
  constructor
  · simp [reportedMissing, he]
  · intro session authCode exchangeO channelsO clicked startD endD api
      writeFail sheet
    refine ⟨?_, ?_, ?_⟩ <;> simp [scriptRun, he]

/-- Witness for C1's amended theorem at a store missing exactly
`GOOGLE_SHEET_ID`. -/
theorem missing_secret_halts_first_key_witness :
    reportedMissing oneMissingStore = ["GOOGLE_SHEET_ID"]
    ∧ (scriptRun oneMissingStore none none (ExchangeOutcome.exError "")
        (ChannelsOutcome.items []) false dateA dateA apiErr500 none
        []).networkCalls = 0 := by
  have h := missing_secret_halts_first_key oneMissingStore (by decide)
  have h2 := h.2 none none (ExchangeOutcome.exError "")
    (ChannelsOutcome.items []) false dateA dateA apiErr500 none []
  exact ⟨h.1.trans (by decide), h2.2.1⟩

/-! ### Claim C10 -/

/-- Claim C10: the channel id and sheet id every operation uses are the
configured secret values with surrounding whitespace stripped, and
stripping is invariant under surrounding whitespace, so configurations
differing only in surrounding whitespace of these values load to the same
used identifiers. -/
theorem used_ids_are_stripped :
    (∀ w1 mid w2 : List Char, (∀ c ∈ w1, isPySpace c = true) →
      (∀ c ∈ w2, isPySpace c = true) →
      pyStrip (String.mk (w1 ++ mid ++ w2)) = pyStrip (String.mk mid))
    ∧ (∀ s cfg raw, loadSecrets s = Except.ok cfg →
        s.get? "YOUTUBE_CHANNEL_ID" = some raw →
        cfg.target_channel_id = pyStrip raw)
    ∧ (∀ s cfg raw, loadSecrets s = Except.ok cfg →
        s.get? "GOOGLE_SHEET_ID" = some raw →
        cfg.google_sheet_id = pyStrip raw) := by
  refine ⟨?_, ?_, ?_⟩
  · intro w1 mid w2 h1 h2
    show String.mk (pyStripL (w1 ++ mid ++ w2)) = String.mk (pyStripL mid)
    exact congrArg String.mk (pyStripL_surround w1 mid w2 h1 h2)
  · intro s cfg raw hok hraw
    rcases h1 : s.get? "GOOGLE_CLIENT_ID" with _ | cid
    · simp [loadSecrets, h1] at hok
    rcases h2 : s.get? "GOOGLE_CLIENT_SECRET" with _ | csec
    · simp [loadSecrets, h1, h2] at hok
    rcases h3 : s.get? "REDIRECT_URI" with _ | ruri
    · simp [loadSecrets, h1, h2, h3] at hok
    rcases h4 : s.get? "YOUTUBE_CHANNEL_ID" with _ | ch
    · simp [loadSecrets, h1, h2, h3, h4] at hok
    rcases h5 : s.get? "GOOGLE_SHEET_ID" with _ | sh
    · simp [loadSecrets, h1, h2, h3, h4, h5] at hok
    · simp only [loadSecrets, h1, h2, h3, h4, h5, Except.ok.injEq] at hok
      have hch : ch = raw := by
        have := h4.symm.trans hraw
        exact Option.some.inj this
      rw [← hok, hch]
  · intro s cfg raw hok hraw
    rcases h1 : s.get? "GOOGLE_CLIENT_ID" with _ | cid
    · simp [loadSecrets, h1] at hok
    rcases h2 : s.get? "GOOGLE_CLIENT_SECRET" with _ | csec
    · simp [loadSecrets, h1, h2] at hok
    rcases h3 : s.get? "REDIRECT_URI" with _ | ruri
    · simp [loadSecrets, h1, h2, h3] at hok
    rcases h4 : s.get? "YOUTUBE_CHANNEL_ID" with _ | ch
    · simp [loadSecrets, h1, h2, h3, h4] at hok
    rcases h5 : s.get? "GOOGLE_SHEET_ID" with _ | sh
    · simp [loadSecrets, h1, h2, h3, h4, h5] at hok
    · simp only [loadSecrets, h1, h2, h3, h4, h5, Except.ok.injEq] at hok
      have hsh : sh = raw := by
        have := h5.symm.trans hraw
        exact Option.some.inj this
      rw [← hok, hsh]

/-- Witness for C10: whitespace-surrounded and bare channel ids strip
alike, and `fullStore`'s ` UC1 ` loads to the used id `UC1`. -/
theorem used_ids_are_stripped_witness :
    pyStrip (String.mk ([' '] ++ ['U', 'C', '1'] ++ [' ', '\t']))
      = pyStrip (String.mk ['U', 'C', '1'])
    ∧ fullCfg.target_channel_id = pyStrip " UC1 " := by
  refine ⟨used_ids_are_stripped.1 [' '] ['U', 'C', '1'] [' ', '\t']
    (by decide) (by decide), ?_⟩
  exact used_ids_are_stripped.2.1 fullStore fullCfg " UC1 " (by decide)
    (by decide)

/-! ### Claim C2 -/

/-- Claim C2: `fetch_youtube_data` returns the empty table (a valid,
non-`None` result) when the response has no `rows` key; on an
`HttpError` it returns `None` (distinguishable from the empty table),
with HTTP 403 surfaced via a channel-specific permission message and any
other status via the generic message. -/
theorem fetch_error_handling (channel_id : String) (s e : Date)
    (api : ReportQuery → ApiOutcome) :
    (∀ resp, api (buildQuery channel_id s e) = ApiOutcome.success resp →
      resp.rows = none →
      (fetch_youtube_data channel_id s e api).2.1 = some emptyTable)
    ∧ (∀ st, api (buildQuery channel_id s e) = ApiOutcome.httpError st →
      (fetch_youtube_data channel_id s e api).2.1 = none
      ∧ (st = 403 → (fetch_youtube_data channel_id s e api).2.2
          = [UiMsg.permission403 channel_id])
      ∧ (st ≠ 403 → (fetch_youtube_data channel_id s e api).2.2
          = [UiMsg.fetchErrorOther st]))
    ∧ some emptyTable ≠ (none : Option Table) := by
  refine ⟨?_, ?_, by simp⟩
  · intro resp hapi hrows
    simp [fetch_youtube_data, hapi, decodeResponse, hrows]
  · intro st hapi
    refine ⟨by simp [fetch_youtube_data, hapi], ?_, ?_⟩
    · intro h403
      simp [fetch_youtube_data, hapi, h403]
    · intro hne
      simp [fetch_youtube_data, hapi, hne]

/-- Witness for C2 with concrete oracles: a `rows`-free response yields
the empty table, HTTP 403 yields `None` with the channel-specific
message, HTTP 500 yields the generic message. -/
theorem fetch_error_handling_witness :
    (fetch_youtube_data "UC1" dateB dateA apiNoRows).2.1 = some emptyTable
    ∧ (fetch_youtube_data "UC1" dateB dateA apiErr403).2.1 = none
    ∧ (fetch_youtube_data "UC1" dateB dateA apiErr403).2.2
        = [UiMsg.permission403 "UC1"]
    ∧ (fetch_youtube_data "UC1" dateB dateA apiErr500).2.2
        = [UiMsg.fetchErrorOther 500] := by
  have h1 := (fetch_error_handling "UC1" dateB dateA apiNoRows).1
    ⟨[⟨"day"⟩, ⟨"views"⟩], none⟩ rfl rfl
  have h2 := (fetch_error_handling "UC1" dateB dateA apiErr403).2.1 403 rfl
  have h3 := (fetch_error_handling "UC1" dateB dateA apiErr500).2.1 500 rfl
  exact ⟨h1, h2.1, h2.2.1 rfl, h3.2.2 (by decide)⟩

/-! ### Claim C6 -/

/-- Claim C6: every fetch issues exactly one report query, scoped to
`channel==<id>`, with the dates rendered by `strftime("%Y-%m-%d")`, the
fixed comma-joined metric list, dimension `day` and sort `day`; a
response carrying rows is decoded at the call boundary into a table whose
columns are the API-declared header names. -/
theorem fetch_query_shape (channel_id : String) (s e : Date)
    (api : ReportQuery → ApiOutcome) :
    (fetch_youtube_data channel_id s e api).1 = [buildQuery channel_id s e]
    ∧ buildQuery channel_id s e =
        ⟨"channel==" ++ channel_id, strftimeYmd s, strftimeYmd e,
         metricsParam, "day", "day"⟩
    ∧ metricsParam = "views,redViews,comments,likes,dislikes,shares,estimatedMinutesWatched,averageViewDuration,subscribersGained,subscribersLost"
    ∧ (∀ resp rs, api (buildQuery channel_id s e) = ApiOutcome.success resp →
        resp.rows = some rs →
        (fetch_youtube_data channel_id s e api).2.1 =
          some ⟨resp.columnHeaders.map (fun h => h.name), rs⟩) := by
  refine ⟨?_, rfl, by decide, ?_⟩
  · cases hapi : api (buildQuery channel_id s e) <;>
      simp [fetch_youtube_data, hapi]
  · intro resp rs hapi hrows
    simp [fetch_youtube_data, hapi, decodeResponse, hrows]

/-- Witness for C6 at concrete dates and a one-row response: the single
query has the expected rendered fields, and the decoded table's columns
are the response's header names. -/
theorem fetch_query_shape_witness :
    (fetch_youtube_data "UC1" dateB dateA apiOneRow).1
      = [⟨"channel==UC1", "2026-10-05", "2026-10-12",
          "views,redViews,comments,likes,dislikes,shares,estimatedMinutesWatched,averageViewDuration,subscribersGained,subscribersLost",
          "day", "day"⟩]
    ∧ (fetch_youtube_data "UC1" dateB dateA apiOneRow).2.1
        = some ⟨["day", "views"], [["2026-10-11", "5"]]⟩ := by
  have h := fetch_query_shape "UC1" dateB dateA apiOneRow
  have hdec := h.2.2.2 ⟨[⟨"day"⟩, ⟨"views"⟩], some [["2026-10-11", "5"]]⟩
    [["2026-10-11", "5"]] rfl rfl
  exact ⟨h.1.trans (by decide), hdec.trans (by decide)⟩

theorem write_none_empty (header : List String) (rows : List (List String)) :
    write_to_sheet none [] header rows = ⟨header :: rows, true, true⟩ := by
  simp [write_to_sheet]

theorem write_none_nonempty (sheet : List (List String))
    (header : List String) (rows : List (List String)) (hs : sheet ≠ []) :
    write_to_sheet none sheet header rows = ⟨sheet ++ rows, true, false⟩ := by
  cases sheet with
  | nil => exact absurd rfl hs
  | cons r rest => simp [write_to_sheet]

theorem runAppendCalls_of_ne_nil :
    ∀ (calls : List (List String × List (List String)))
      (sheet : List (List String)), sheet ≠ [] →
      runAppendCalls calls sheet =
        (sheet ++ (calls.map Prod.snd).flatten,
         List.replicate calls.length false) := by
  intro calls
  induction calls with
  | nil => intro sheet _; simp [runAppendCalls]
  | cons c rest ih =>
    intro sheet hs
    have hne : sheet ++ c.2 ≠ [] := by
      cases sheet with
      | nil => exact absurd rfl hs
      | cons r t => simp
    simp only [runAppendCalls, write_none_nonempty sheet c.1 c.2 hs,
      ih (sheet ++ c.2) hne]
    simp [List.append_assoc, List.replicate_succ]

/-! ### Claim C3 -/

/-- Claim C3: in append mode a header is written only when the sheet
holds no values, then the data rows are appended; consequently, across
any sequence of successful calls from an initially empty sheet, only the
first call writes a header and every later call appends just its data
rows, leaving the sheet as the first header followed by all data rows. -/
theorem append_mode_header_once (h0 : List String) (r0 : List (List String))
    (calls : List (List String × List (List String))) :
    (∀ header rows,
      write_to_sheet none [] header rows = ⟨header :: rows, true, true⟩)
    ∧ (∀ sheet header rows, sheet ≠ [] →
        write_to_sheet none sheet header rows = ⟨sheet ++ rows, true, false⟩)
    ∧ (runAppendCalls ((h0, r0) :: calls) []).2
        = true :: List.replicate calls.length false
    ∧ (runAppendCalls ((h0, r0) :: calls) []).1
        = h0 :: (r0 ++ (calls.map Prod.snd).flatten) := by
  have hrun : runAppendCalls ((h0, r0) :: calls) [] =
      ((h0 :: r0) ++ (calls.map Prod.snd).flatten,
       true :: List.replicate calls.length false) := by
    simp only [runAppendCalls, write_none_empty h0 r0]
    rw [runAppendCalls_of_ne_nil calls (h0 :: r0) (by simp)]
  refine ⟨write_none_empty, write_none_nonempty, ?_, ?_⟩
  · rw [hrun]
  · simp [hrun]

/-- Witness for C3: two successful calls on an initially empty sheet
write the header once (first call only) and leave header plus both data
row batches. -/
theorem append_mode_header_once_witness :
    (runAppendCalls [(["day"], [["d1"]]), (["day"], [["d2"]])] []).2
      = [true, false]
    ∧ (runAppendCalls [(["day"], [["d1"]]), (["day"], [["d2"]])] []).1
      = [["day"], ["d1"], ["d2"]]
    ∧ write_to_sheet none [["day"], ["d1"]] ["day"] [["d2"]]
      = ⟨[["day"], ["d1"], ["d2"]], true, false⟩ := by
  have h := append_mode_header_once ["day"] [["d1"]] [(["day"], [["d2"]])]
  exact ⟨h.2.2.1.trans (by decide), h.2.2.2.trans (by decide),
    (h.2.1 [["day"], ["d1"]] ["day"] [["d2"]] (by decide)).trans (by decide)⟩

/-! ### Claim C4 -/

/-- Claim C4: a `write_to_sheet` call returns `False` exactly when one of
the executed spreadsheet operations raises; effects completed before the
raising operation persist (a header written before a failed row append is
not rolled back); with no exception it performs the full write and
returns `True`. -/
theorem write_failure_semantics (failAt : Option WStep)
    (sheet : List (List String)) (header : List String)
    (rows : List (List String)) :
    ((write_to_sheet failAt sheet header rows).ok = false ↔
      raisesDuring failAt sheet = true)
    ∧ (raisesDuring failAt sheet = false →
        write_to_sheet failAt sheet header rows =
          ⟨if sheet.isEmpty then header :: rows else sheet ++ rows, true,
           sheet.isEmpty⟩)
    ∧ (failAt = some WStep.appendRows → sheet = [] →
        (write_to_sheet failAt sheet header rows).sheet = [header]) := by
  rcases failAt with _ | step
  · rcases sheet with _ | ⟨r, rest⟩ <;>
      simp [write_to_sheet, raisesDuring]
  · rcases step <;> rcases sheet with _ | ⟨r, rest⟩ <;>
      simp [write_to_sheet, raisesDuring]

/-- Witness for C4: a failed append on an initially empty sheet leaves
the already-written header in place and reports failure; the same call
with no exception reports success. -/
theorem write_failure_semantics_witness :
    (write_to_sheet (some WStep.appendRows) [] ["day"] [["d1"]]).sheet
      = [["day"]]
    ∧ (write_to_sheet (some WStep.appendRows) [] ["day"] [["d1"]]).ok = false
    ∧ write_to_sheet none [] ["day"] [["d1"]]
      = ⟨[["day"], ["d1"]], true, true⟩ := by
  have hf := write_failure_semantics (some WStep.appendRows) [] ["day"]
    [["d1"]]
  have hn := write_failure_semantics none [] ["day"] [["d1"]]
  exact ⟨hf.2.2 rfl rfl, hf.1.mpr (by decide),
    (hn.2.1 (by decide)).trans (by decide)⟩

/-! ### Claim C5 -/

/-- Claim C5: `checkDeviation` returns none whenever fewer than 8 samples
are supplied or the trailing 7-sample average is exactly zero; otherwise
it alerts exactly when `|latest - avg7| / avg7 > threshold`, and the
boundary case where the deviation equals the threshold returns none. -/
theorem checkDeviation_characterization (samples : List ℚ) (metric : String)
    (threshold : ℚ) :
    (samples.length < 8 → checkDeviation samples metric threshold = none)
    ∧ (avg7 samples = 0 → checkDeviation samples metric threshold = none)
    ∧ (8 ≤ samples.length → avg7 samples ≠ 0 →
        ((checkDeviation samples metric threshold).isSome = true ↔
          |latestSample samples - avg7 samples| / avg7 samples > threshold))
    ∧ (|latestSample samples - avg7 samples| / avg7 samples = threshold →
        checkDeviation samples metric threshold = none) := by
  refine ⟨?_, ?_, ?_, ?_⟩
  · intro hlen
    simp [checkDeviation, hlen]
  · intro havg
    by_cases hlen : samples.length < 8
    · simp [checkDeviation, hlen]
    · simp [checkDeviation, hlen, havg]
  · intro hlen havg
    have hlen' : ¬ samples.length < 8 := not_lt.mpr hlen
    by_cases hdev :
        threshold < |latestSample samples - avg7 samples| / avg7 samples
    · simp [checkDeviation, hlen', havg, hdev]
    · simp [checkDeviation, hlen', havg, hdev]
  · intro heq
    by_cases hlen : samples.length < 8
    · simp [checkDeviation, hlen]
    · by_cases havg : avg7 samples = 0
      · simp [checkDeviation, hlen, havg]
      · have : ¬ threshold <
            |latestSample samples - avg7 samples| / avg7 samples := by
          rw [heq]
          exact lt_irrefl threshold
        simp [checkDeviation, hlen, havg, this]

/-- Witness for C5 at the spec's example: seven samples of 10 followed by
20 with threshold 1/2 give avg7 = 10, deviation 1, and an alert. -/
theorem checkDeviation_characterization_witness :
    (8 : ℕ) ≤ ([10, 10, 10, 10, 10, 10, 10, 20] : List ℚ).length
    ∧ avg7 [10, 10, 10, 10, 10, 10, 10, 20] = 10
    ∧ (checkDeviation [10, 10, 10, 10, 10, 10, 10, 20] "views"
        (1 / 2)).isSome = true
    ∧ checkDeviation [10, 10, 10, 10, 10, 10, 10, 20] "views" (1 / 2)
        = some ⟨"views", 20, 10, 1⟩ := by
  have havg : avg7 ([10, 10, 10, 10, 10, 10, 10, 20] : List ℚ) = 10 := by
    simp [avg7]
    norm_num
  have hlat : latestSample ([10, 10, 10, 10, 10, 10, 10, 20] : List ℚ)
      = 20 := rfl
  have habs : |(20 : ℚ) - 10| = 10 := by
    rw [show (20 : ℚ) - 10 = 10 by norm_num]
    exact abs_of_nonneg (by norm_num)
  have hsome := ((checkDeviation_characterization
    [10, 10, 10, 10, 10, 10, 10, 20] "views" (1 / 2)).2.2.1 (by decide)
    (by rw [havg]; norm_num)).mpr
    (by rw [havg, hlat, habs]; norm_num)
  refine ⟨by decide, havg, hsome, ?_⟩
  have h8 : ¬ ([10, 10, 10, 10, 10, 10, 10, 20] : List ℚ).length < 8 := by
    decide
  simp only [checkDeviation, h8, if_false, havg, hlat, habs]
  norm_num

/-! ### Claim C7 -/

/-- Claim C7: a failed authorization-code exchange is caught and surfaced
as an error, the session credential store stays unset (the session
remains Unauthenticated and unchanged), the pipeline does not run, and a
later successful exchange from that same state authenticates. -/
theorem failed_exchange_recoverable (s : SecretsStore) (cfg : Config)
    (hok : loadSecrets s = Except.ok cfg) (code msg : String) (c : Creds)
    (channelsO : ChannelsOutcome) (clicked : Bool) (startD endD : Date)
    (api : ReportQuery → ApiOutcome) (writeFail : Option WStep)
    (sheet : List (List String)) :
    (scriptRun s none (some code) (ExchangeOutcome.exError msg) channelsO
        clicked startD endD api writeFail sheet).session = none
    ∧ (scriptRun s none (some code) (ExchangeOutcome.exError msg) channelsO
        clicked startD endD api writeFail sheet).authError = true
    ∧ (scriptRun s none (some code) (ExchangeOutcome.exError msg) channelsO
        clicked startD endD api writeFail sheet).pipelineRuns = 0
    ∧ (scriptRun s none (some code) (ExchangeOutcome.ok c) channelsO
        clicked startD endD api writeFail sheet).session
      = some (save_credentials_to_session c) := by
  refine ⟨?_, ?_, ?_, ?_⟩ <;> simp [scriptRun, hok]

/-- Witness for C7 at concrete inputs: a failed exchange leaves the
session unset with the error flag raised; retrying with a successful
exchange stores the credential. -/
theorem failed_exchange_recoverable_witness :
    (scriptRun fullStore none (some "code") (ExchangeOutcome.exError "boom")
        (ChannelsOutcome.items []) false dateA dateA apiErr500 none
        []).session = none
    ∧ (scriptRun fullStore none (some "code")
        (ExchangeOutcome.exError "boom") (ChannelsOutcome.items []) false
        dateA dateA apiErr500 none []).authError = true
    ∧ (scriptRun fullStore none (some "code") (ExchangeOutcome.ok demoCreds)
        (ChannelsOutcome.items []) false dateA dateA apiErr500 none
        []).session = some demoStored := by
  have h := failed_exchange_recoverable fullStore fullCfg (by decide) "code"
    "boom" demoCreds (ChannelsOutcome.items []) false dateA dateA apiErr500
    none []
  exact ⟨h.1, h.2.1, h.2.2.2.trans (by decide)⟩

/-! ### Claim C8 -/

/-- Claim C8: the fetch-and-write pipeline runs at most once per script
run, and runs exactly once precisely when a session credential exists,
the channel-list call succeeded with the configured target among the
accessible channel ids, and the user clicked the fetch button; when the
target is absent from the accessible list, the permission-mismatch error
naming the target and listing the accessible channels is shown instead. -/
theorem pipeline_gating (s : SecretsStore) (cfg : Config)
    (hok : loadSecrets s = Except.ok cfg) (session : Option StoredCreds)
    (authCode : Option String) (exchangeO : ExchangeOutcome)
    (channelsO : ChannelsOutcome) (clicked : Bool) (startD endD : Date)
    (api : ReportQuery → ApiOutcome) (writeFail : Option WStep)
    (sheet : List (List String)) :
    (scriptRun s session authCode exchangeO channelsO clicked startD endD
        api writeFail sheet).pipelineRuns ≤ 1
    ∧ ((scriptRun s session authCode exchangeO channelsO clicked startD endD
        api writeFail sheet).pipelineRuns = 1 ↔
        session.isSome = true ∧ clicked = true ∧
        ∃ chs, channelsO = ChannelsOutcome.items chs ∧
          cfg.target_channel_id ∈ chs.map Channel.id)
    ∧ (∀ st chs, session = some st →
        channelsO = ChannelsOutcome.items chs →
        cfg.target_channel_id ∉ chs.map Channel.id →
        (scriptRun s session authCode exchangeO channelsO clicked startD endD
            api writeFail sheet).mismatch
          = some (cfg.target_channel_id, chs)) := by
  rcases session with _ | st
  · rcases authCode with _ | code
    · refine ⟨by simp [scriptRun, hok], by simp [scriptRun, hok], ?_⟩
      intro st chs hs
      exact absurd hs (by simp)
    · rcases exchangeO with c | msg
      · refine ⟨by simp [scriptRun, hok], by simp [scriptRun, hok], ?_⟩
        intro st chs hs
        exact absurd hs (by simp)
      · refine ⟨by simp [scriptRun, hok], by simp [scriptRun, hok], ?_⟩
        intro st chs hs
        exact absurd hs (by simp)
  · rcases channelsO with chs | status
    · by_cases hmem : cfg.target_channel_id ∈ chs.map Channel.id
      · rcases clicked
        · refine ⟨by simp [scriptRun, hok, get_accessible_channels, hmem],
            by simp [scriptRun, hok, get_accessible_channels, hmem], ?_⟩
          intro st' chs' _ hc hnot
          have : chs' = chs := (ChannelsOutcome.items.inj hc).symm
          exact absurd (this ▸ hmem) hnot
        · refine ⟨by simp [scriptRun, hok, get_accessible_channels, hmem],
            ?_, ?_⟩
          · constructor
            · intro h1
              exact ⟨by simp, rfl, chs, rfl, hmem⟩
            · intro _
              simp [scriptRun, hok, get_accessible_channels, hmem]
          · intro st' chs' _ hc hnot
            have : chs' = chs := (ChannelsOutcome.items.inj hc).symm
            exact absurd (this ▸ hmem) hnot
      · refine ⟨by simp [scriptRun, hok, get_accessible_channels, hmem],
          ?_, ?_⟩
        · constructor
          · intro h1
            simp [scriptRun, hok, get_accessible_channels, hmem] at h1
          · rintro ⟨-, -, chs', hc, hmem'⟩
            have : chs' = chs := ChannelsOutcome.items.inj (Eq.symm hc)
            exact absurd (this ▸ hmem') hmem
        · intro st' chs' _ hc hnot
          have : chs' = chs := ChannelsOutcome.items.inj (Eq.symm hc)
          subst this
          simp [scriptRun, hok, get_accessible_channels, hmem]
    · refine ⟨by simp [scriptRun, hok, get_accessible_channels],
        by simp [scriptRun, hok, get_accessible_channels], ?_⟩
      intro st' chs' _ hc
      exact absurd hc (by simp)

/-- Witness for C8: with a session credential, the target among the
accessible channels and a click, the pipeline runs once; with the target
absent, the mismatch error lists the accessible channels. -/
theorem pipeline_gating_witness :
    (scriptRun fullStore (some demoStored) none (ExchangeOutcome.exError "")
        (ChannelsOutcome.items [demoChannel]) true dateB dateA apiErr500
        none []).pipelineRuns = 1
    ∧ (scriptRun fullStore (some demoStored) none
        (ExchangeOutcome.exError "") (ChannelsOutcome.items []) true dateB
        dateA apiErr500 none []).mismatch = some ("UC1", []) := by
  have h1 := pipeline_gating fullStore fullCfg (by decide) (some demoStored)
    none (ExchangeOutcome.exError "") (ChannelsOutcome.items [demoChannel])
    true dateB dateA apiErr500 none []
  have h2 := pipeline_gating fullStore fullCfg (by decide) (some demoStored)
    none (ExchangeOutcome.exError "") (ChannelsOutcome.items []) true dateB
    dateA apiErr500 none []
  refine ⟨h1.2.1.mpr ⟨rfl, rfl, [demoChannel], rfl, by decide⟩, ?_⟩
  exact (h2.2.2 demoStored [] rfl rfl (by decide)).trans (by decide)

end App
